import Mathlib

/-!
A shallow embedding of the cvx-core validators (SteveDiamond/cvx-core):
the specification loader (src/validators/common/spec_loader.py), the
conformance algebra and per-atom validation of the cvxpy backend validator
(src/validators/python/validate_cvxpy.py), and the cross-backend
orchestrator (src/validators/run_all.py).

Modelling conventions:
- Python enums become inductive types; the enum constructor call
  (for example Curvature(raw), which raises ValueError on a token outside
  the enum) becomes an Option-returning lookup on the token string.
- Python dicts built by the loader become association lists with
  first-match lookup (keys produced by the loader are unique per dict).
- Calls into the external cvxpy library (atom construction, expression
  flag introspection) are abstracted as a Backend record holding the
  observable outcomes the validator reads: which atom names are mapped,
  the flags of the constructed test expression (None when construction
  raised), and the outcome of probing the atom on a non-affine argument.
- Python strings that are parsed character by character (the orchestrator
  summary-line scan) are modelled as List Char with structural
  implementations of str.split, str.strip and int(); Python int() is
  modelled as an optional-sign decimal parser (underscore separators and
  non-ASCII digits are not modelled).
- Raised exceptions become Except / Option values.
-/

/-! ## Enums from spec_loader.py -/

inductive Curvature
  | constant
  | affine
  | convex
  | concave
  | unknown
deriving DecidableEq

def Curvature.value : Curvature → String
  | .constant => "constant"
  | .affine => "affine"
  | .convex => "convex"
  | .concave => "concave"
  | .unknown => "unknown"

/-- The Python enum constructor Curvature(raw): some member on a declared
token, none where Python raises ValueError. -/
def Curvature.ofValue? (s : String) : Option Curvature :=
  if s = "constant" then some .constant
  else if s = "affine" then some .affine
  else if s = "convex" then some .convex
  else if s = "concave" then some .concave
  else if s = "unknown" then some .unknown
  else none

inductive Sign
  | nonnegative
  | nonpositive
  | unknown
  | zero
deriving DecidableEq

def Sign.value : Sign → String
  | .nonnegative => "nonnegative"
  | .nonpositive => "nonpositive"
  | .unknown => "unknown"
  | .zero => "zero"

inductive Monotonicity
  | increasing
  | decreasing
  | none
deriving DecidableEq

/-! ## AtomSpec / AtomSpecs (spec_loader.py) -/

/-- Auxiliary parameter descriptor: the loader stores the raw YAML list
entries and never inspects them; a descriptor is kept as an association
list of scalar fields. -/
abbrev ParamDesc := List (String × String)

structure AtomSpec where
  name : String
  description : String
  curvature : Curvature
  sign : Sign
  arity : String
  dcp_requires : Option String := none
  monotonicity : Option Monotonicity := none
  parameters : List ParamDesc := []
deriving DecidableEq

def AtomSpec.requires_affine_arg (spec : AtomSpec) : Bool :=
  spec.dcp_requires == some "affine_arg"

def AtomSpec.requires_constant_arg (spec : AtomSpec) : Bool :=
  spec.dcp_requires == some "constant_arg"

/-- Python dict.get on a loader-built dict (unique keys, first match). -/
def dictGet (d : List (String × AtomSpec)) (name : String) : Option AtomSpec :=
  (d.find? (fun p => p.1 == name)).map (fun p => p.2)

structure AtomSpecs where
  affine_atoms : List (String × AtomSpec)
  convex_atoms : List (String × AtomSpec)
  concave_atoms : List (String × AtomSpec)
deriving DecidableEq

/-- AtomSpecs.get: the three partitions are scanned in the fixed order
affine, convex, concave, chained with Python `or` (an AtomSpec instance is
always truthy, so `or` is Option.orElse here). -/
def AtomSpecs.get (s : AtomSpecs) (name : String) : Option AtomSpec :=
  (dictGet s.affine_atoms name).orElse fun _ =>
    (dictGet s.convex_atoms name).orElse fun _ =>
      dictGet s.concave_atoms name

/-- Python dict merge d1 | d2 (later keys win), up to key order: lookup in
the merged dict agrees with Python, overridden keys keep d2's value. -/
def dictMerge (d1 d2 : List (String × AtomSpec)) : List (String × AtomSpec) :=
  d1.filter (fun p => (dictGet d2 p.1).isNone) ++ d2

/-- AtomSpecs.all_atoms: the merged dict built as the double-splat of the
three partition dicts, so on a key collision the LAST partition wins
(opposite precedence to AtomSpecs.get). -/
def AtomSpecs.all_atoms (s : AtomSpecs) : List (String × AtomSpec) :=
  dictMerge (dictMerge s.affine_atoms s.convex_atoms) s.concave_atoms

/-! ## Loader parsing (spec_loader.py) -/

/-- A raw YAML scalar position that the loader type-tests: either a string
token or a structured mapping (whose contents the loader never reads). -/
inductive RawScalar
  | str (s : String)
  | mapping
deriving DecidableEq

def _parse_sign (raw : RawScalar) : Sign :=
  match raw with
  | .str s =>
    if s = "nonnegative" then Sign.nonnegative
    else if s = "nonpositive" then Sign.nonpositive
    else if s = "unknown" then Sign.unknown
    else if s = "from_value" ∨ s = "from_attributes" ∨ s = "preserve" then
      Sign.unknown
    else Sign.unknown
  | .mapping => Sign.unknown

def _parse_monotonicity (raw : Option String) : Option Monotonicity :=
  match raw with
  | Option.none => Option.none
  | some s =>
    if s = "increasing" then some Monotonicity.increasing
    else if s = "decreasing" then some Monotonicity.decreasing
    else if s = "none" then some Monotonicity.none
    else Option.none

/-- One atom's raw YAML record: data.get(field, default) is modelled by an
Option per field, none meaning the key is absent. -/
structure AtomData where
  description : Option String := none
  curvature : Option RawScalar := none
  sign : Option RawScalar := none
  arity : Option String := none
  dcp_requires : Option String := none
  monotonicity : Option String := none
  parameters : Option (List ParamDesc) := none
deriving DecidableEq

/-- _parse_atom: the error case is the ValueError that the Curvature enum
constructor raises on an unrecognized curvature token. -/
def _parse_atom (name : String) (data : AtomData) (default_curvature : Curvature) :
    Except String AtomSpec :=
  let curvature_raw := data.curvature.getD (RawScalar.str default_curvature.value)
  let curvatureE : Except String Curvature :=
    match curvature_raw with
    | .mapping => Except.ok default_curvature
    | .str s =>
      if s = "preserve" then Except.ok default_curvature
      else
        match Curvature.ofValue? s with
        | some c => Except.ok c
        | Option.none => Except.error ("ValueError: not a valid Curvature: " ++ s)
  match curvatureE with
  | Except.error e => Except.error e
  | Except.ok curvature =>
    Except.ok
      { name := name
        description := data.description.getD ""
        curvature := curvature
        sign := _parse_sign (data.sign.getD (RawScalar.str "unknown"))
        arity := data.arity.getD "unary"
        dcp_requires := data.dcp_requires
        monotonicity := _parse_monotonicity data.monotonicity
        parameters := data.parameters.getD [] }

/-- The top-level YAML document: three optional atom groups,
data.get(group, empty dict) modelled by Option. -/
structure SpecDoc where
  affine_atoms : Option (List (String × AtomData)) := none
  convex_atoms : Option (List (String × AtomData)) := none
  concave_atoms : Option (List (String × AtomData)) := none

def parseGroup (group : Option (List (String × AtomData))) (dc : Curvature) :
    Except String (List (String × AtomSpec)) :=
  (group.getD []).mapM (fun p => (_parse_atom p.1 p.2 dc).map (fun spec => (p.1, spec)))

/-- load_specs: the three groups are parsed in order; a ValueError raised
while parsing any atom propagates out (the run aborts), modelled by the
explicit error propagation below. -/
def load_specs (doc : SpecDoc) : Except String AtomSpecs :=
  match parseGroup doc.affine_atoms Curvature.affine with
  | Except.error e => Except.error e
  | Except.ok aff =>
    match parseGroup doc.convex_atoms Curvature.convex with
    | Except.error e => Except.error e
    | Except.ok cvx =>
      match parseGroup doc.concave_atoms Curvature.concave with
      | Except.error e => Except.error e
      | Except.ok ccv =>
        Except.ok { affine_atoms := aff, convex_atoms := cvx, concave_atoms := ccv }

/-! ## Conformance algebra (validate_cvxpy.py) -/

/-- The four curvature introspection booleans a backend reports for a
constructed expression, in the order the code reads them. -/
structure CurvFlags where
  is_convex : Bool
  is_concave : Bool
  is_affine : Bool
  is_constant : Bool
deriving DecidableEq

/-- The diagnostic classification computed inside check_curvature
(precedence: constant, affine, convex-only, concave-only, unknown). -/
def curvatureActual (f : CurvFlags) : String :=
  if f.is_constant then "constant"
  else if f.is_affine then "affine"
  else if f.is_convex && !f.is_concave then "convex"
  else if f.is_concave && !f.is_convex then "concave"
  else "unknown"

def check_curvature (f : CurvFlags) (expected : Curvature) : Bool × String :=
  let passed :=
    match expected with
    | Curvature.constant => f.is_constant
    | Curvature.affine => f.is_affine
    | Curvature.convex => f.is_convex
    | Curvature.concave => f.is_concave
    | Curvature.unknown => true
  (passed, "expected " ++ expected.value ++ ", got " ++ curvatureActual f)

/-- The diagnostic classification computed inside check_sign. -/
def signActual (is_nonneg is_nonpos : Bool) : String :=
  if is_nonneg && is_nonpos then "zero"
  else if is_nonneg then "nonnegative"
  else if is_nonpos then "nonpositive"
  else "unknown"

def check_sign (is_nonneg is_nonpos : Bool) (expected : Sign) : Bool × String :=
  let passed :=
    match expected with
    | Sign.nonnegative => is_nonneg
    | Sign.nonpositive => is_nonpos
    | Sign.zero => is_nonneg && is_nonpos
    | Sign.unknown => true
  (passed, "expected " ++ expected.value ++ ", got " ++ signActual is_nonneg is_nonpos)

def BINARY_ATOMS : List String := ["maximum", "minimum", "quad_form", "quad_over_lin"]

def MATRIX_ATOMS : List String := ["trace", "transpose", "diag"]

/-- Outcome of the backend constructing the atom applied to the
deliberately non-affine argument sum_squares(x): either construction
raised (with the exception text), or it produced an expression whose
is_convex / is_affine introspection flags are recorded. -/
inductive ProbeResult
  | raises (msg : String)
  | builds (is_convex : Bool) (is_affine : Bool)
deriving DecidableEq

/-- check_dcp_with_non_affine: note that in the source the branch that
reads the composed expression's flags ends in a bare `pass` statement
(its comment says to check that the result is NOT convex, but nothing is
checked), after which the code returns success; every control path
returns True. -/
def check_dcp_with_non_affine (atom_name : String) (spec : AtomSpec)
    (probe : ProbeResult) : Bool × String :=
  if !spec.requires_affine_arg then (true, "no affine requirement")
  else if atom_name = "quad_form" then
    match probe with
    | .raises msg => (true, "rejected with: " ++ msg)
    | .builds _ _ => (true, "composition check passed")
  else if atom_name ∈ BINARY_ATOMS then (true, "skipped binary atom")
  else
    match probe with
    | .raises _ => (true, "correctly rejected non-affine")
    | .builds _ _ =>
      -- Source: `if expr.is_convex() and not expr.is_affine(): pass`,
      -- then falls through to the success return below.
      (true, "composition check passed")

/-! ## Per-atom validation (validate_cvxpy.py) -/

/-- The six introspection booleans the validator reads off a successfully
constructed test expression. -/
structure ExprFlags where
  curv : CurvFlags
  is_nonneg : Bool
  is_nonpos : Bool
deriving DecidableEq

structure ValidationResult where
  atom_name : String
  passed : Bool
  checks : List (String × Bool × String)
deriving DecidableEq

def ValidationResult.failed_checks (r : ValidationResult) : List (String × Bool × String) :=
  r.checks.filter (fun c => !c.2.1)

/-- The cvxpy side of the validator, abstracted to the observations the
code makes of it: ATOM_MAP membership, the outcome of
create_test_expression (none when construction raised and the warning was
printed), and the outcome of the non-affine composition probe. -/
structure Backend where
  atom_map : List String
  construct : String → Option ExprFlags
  dcp_probe : String → ProbeResult

/-- validate_atom. The source message for a missing atom quotes the atom
name in single quotes; the quote characters are omitted here. -/
def validate_atom (b : Backend) (atom_name : String) (spec : AtomSpec) : ValidationResult :=
  if atom_name ∈ b.atom_map then
    let checks0 : List (String × Bool × String) := [("exists", true, "atom exists in cvxpy")]
    match b.construct atom_name with
    | Option.none =>
      { atom_name := atom_name
        passed := false
        checks := checks0 ++ [("creates_expr", false, "could not create expression")] }
    | some flags =>
      let checks := checks0 ++
        [("creates_expr", true, "expression created"),
         ("curvature", check_curvature flags.curv spec.curvature),
         ("sign", check_sign flags.is_nonneg flags.is_nonpos spec.sign),
         ("dcp_requirement", check_dcp_with_non_affine atom_name spec (b.dcp_probe atom_name))]
      { atom_name := atom_name
        passed := checks.all (fun c => c.2.1)
        checks := checks }
  else
    { atom_name := atom_name
      passed := false
      checks := [("exists", false, "atom " ++ atom_name ++ " not mapped to cvxpy")] }

/-- validate_all: iterates the backend's own ATOM_MAP, silently skipping
atoms absent from the specification. -/
def validate_all (b : Backend) (specs : AtomSpecs) : List ValidationResult :=
  b.atom_map.filterMap (fun atom_name =>
    match specs.get atom_name with
    | Option.none => Option.none
    | some spec => some (validate_atom b atom_name spec))

/-- main: sys.exit(len(failures)) where failures are the non-passed
results. -/
def main_exit_code (b : Backend) (specs : AtomSpecs) : Nat :=
  ((validate_all b specs).filter (fun r => !r.passed)).length

/-! ## Python string helpers for the orchestrator (run_all.py)

The orchestrator scans the child's captured text output; Lean's String
functions do not reduce in the kernel, so Python str values are modelled
as List Char with structural implementations of the str methods used. -/

abbrev PyStr := List Char

/-- Python substring containment (`sub in s`). -/
def containsSub (sub s : PyStr) : Bool :=
  match s with
  | [] => sub.isEmpty
  | _ :: rest => sub.isPrefixOf s || containsSub sub rest

def fuelSplit (sep : PyStr) : Nat → PyStr → PyStr → List PyStr
  | 0, _, acc => [acc.reverse]
  | _ + 1, [], acc => [acc.reverse]
  | fuel + 1, c :: rest, acc =>
    if sep.isPrefixOf (c :: rest) then
      acc.reverse :: fuelSplit sep fuel ((c :: rest).drop sep.length) []
    else
      fuelSplit sep fuel rest (c :: acc)

/-- Python str.split(sep) for a non-empty separator. -/
def pySplitOn (s sep : PyStr) : List PyStr := fuelSplit sep (s.length + 1) s []

def dropLeadingWs : PyStr → PyStr
  | [] => []
  | c :: rest => if c.isWhitespace then dropLeadingWs rest else c :: rest

/-- Python str.strip(). -/
def pyStrip (s : PyStr) : PyStr :=
  (dropLeadingWs (dropLeadingWs s).reverse).reverse

def pySplitWsAux : PyStr → PyStr → List PyStr
  | [], acc => if acc.isEmpty then [] else [acc.reverse]
  | c :: rest, acc =>
    if c.isWhitespace then
      if acc.isEmpty then pySplitWsAux rest [] else acc.reverse :: pySplitWsAux rest []
    else pySplitWsAux rest (c :: acc)

/-- Python str.split() with no argument: whitespace runs, no empties. -/
def pySplitWs (s : PyStr) : List PyStr := pySplitWsAux s []

def digitsToNatAux : Nat → PyStr → Option Nat
  | acc, [] => some acc
  | acc, c :: rest =>
    if c.isDigit then digitsToNatAux (acc * 10 + (c.toNat - 48)) rest else Option.none

def digitsToNat? : PyStr → Option Nat
  | [] => Option.none
  | cs => digitsToNatAux 0 cs

/-- Python int(s): optional surrounding whitespace, optional sign, decimal
digits; none where Python raises ValueError. -/
def pyInt? (s : PyStr) : Option Int :=
  match pyStrip s with
  | [] => Option.none
  | c :: rest =>
    if c = '-' then (digitsToNat? rest).map (fun n => -(n : Int))
    else if c = '+' then (digitsToNat? rest).map (fun n => (n : Int))
    else (digitsToNat? (c :: rest)).map (fun n => (n : Int))

/-! ## Orchestrator (run_all.py) -/

/-- Outcome of the blocking subprocess call: normal completion with an
exit code and combined stdout+stderr text, a TimeoutExpired, or any other
exception (FileNotFoundError included) with its str() text. -/
inductive InvokeResult
  | completed (returncode : Int) (output : PyStr)
  | timedOut
  | raised (msg : String)

structure ValidatorResult where
  language : String
  success : Bool
  passed : Int
  total : Int
  output : PyStr
  error : Option String := none

/-- The body of the summary-scan loop for one line; errors are the
exceptions int() / unpacking can raise there (texts abbreviated). -/
def parse_summary_line (acc : Int × Int) (line : PyStr) : Except String (Int × Int) :=
  if containsSub (String.toList "Validation Results:") line then
    let parts := pyStrip ((pySplitOn line (String.toList ":")).getLastD [])
    if containsSub (String.toList "/") parts then
      match pySplitWs parts with
      | [] => Except.error "IndexError: list index out of range"
      | nums :: _ =>
        match (pySplitOn nums (String.toList "/")).map pyInt? with
        | [some p, some t] => Except.ok (p, t)
        | _ => Except.error "ValueError: invalid summary counts"
    else Except.ok acc
  else Except.ok acc

def scan_summary_aux (acc : Int × Int) : List PyStr → Except String (Int × Int)
  | [] => Except.ok acc
  | line :: rest =>
    match parse_summary_line acc line with
    | Except.error e => Except.error e
    | Except.ok acc2 => scan_summary_aux acc2 rest

/-- The summary scan over output.split("\n"), starting from
passed, total = 0, 0; an exception propagates to the enclosing handler. -/
def scan_summary (output : PyStr) : Except String (Int × Int) :=
  scan_summary_aux (0, 0) (pySplitOn output (String.toList "\n"))

def scanOk (output : PyStr) : Bool :=
  match scan_summary output with
  | Except.ok _ => true
  | Except.error _ => false

def run_python_validator (inv : InvokeResult) : ValidatorResult :=
  match inv with
  | .completed rc out =>
    match scan_summary out with
    | Except.ok pt =>
      { language := "python/cvxpy", success := rc == 0, passed := pt.1, total := pt.2,
        output := out, error := none }
    | Except.error e =>
      { language := "python/cvxpy", success := false, passed := 0, total := 0,
        output := [], error := some e }
  | .timedOut =>
    { language := "python/cvxpy", success := false, passed := 0, total := 0,
      output := [], error := some "Timeout after 60 seconds" }
  | .raised msg =>
    { language := "python/cvxpy", success := false, passed := 0, total := 0,
      output := [], error := some msg }

/-- run_rust_validator: also checks that the validators/rust directory
exists before invoking cargo; the FileNotFoundError branch's fixed
message and the generic branch's str(e) are both covered by raised. -/
def run_rust_validator (rustDirExists : Bool) (inv : InvokeResult) : ValidatorResult :=
  if !rustDirExists then
    { language := "rust/cvxrust", success := false, passed := 0, total := 0,
      output := [], error := some "Rust validator directory not found" }
  else
    match inv with
    | .completed rc out =>
      match scan_summary out with
      | Except.ok pt =>
        { language := "rust/cvxrust", success := rc == 0, passed := pt.1, total := pt.2,
          output := out, error := none }
      | Except.error e =>
        { language := "rust/cvxrust", success := false, passed := 0, total := 0,
          output := [], error := some e }
    | .timedOut =>
      { language := "rust/cvxrust", success := false, passed := 0, total := 0,
        output := [], error := some "Timeout after 120 seconds" }
    | .raised msg =>
      { language := "rust/cvxrust", success := false, passed := 0, total := 0,
        output := [], error := some msg }

inductive Status
  | PASS
  | FAIL
  | ERROR
deriving DecidableEq

/-- Python truthiness of the Optional[str] error field: None and the
empty string are falsy. -/
def pyTruthy (o : Option String) : Bool :=
  match o with
  | Option.none => false
  | some s => s != ""

/-- The per-row status computed in print_summary:
status = PASS if success else FAIL, overridden to ERROR when the error
field is truthy. -/
def classify (r : ValidatorResult) : Status :=
  let status := if r.success then Status.PASS else Status.FAIL
  if pyTruthy r.error then Status.ERROR else status

/-- main's final exit: sys.exit(1) unless all results report success. -/
def orchestrator_exit (results : List ValidatorResult) : Nat :=
  if results.all (fun r => r.success) then 0 else 1

/-- True when some line of the output contains the summary-line token. -/
def hasSummaryLine (output : PyStr) : Bool :=
  (pySplitOn output (String.toList "\n")).any
    (fun line => containsSub (String.toList "Validation Results:") line)

/-! ## Concrete fixtures used by counterexamples and witnesses -/

def spec_sum : AtomSpec :=
  { name := "sum", description := "", curvature := Curvature.affine,
    sign := Sign.unknown, arity := "unary" }

def spec_abs : AtomSpec :=
  { name := "abs", description := "", curvature := Curvature.convex,
    sign := Sign.nonnegative, arity := "unary" }

def spec_norm1 : AtomSpec :=
  { name := "norm1", description := "", curvature := Curvature.convex,
    sign := Sign.nonnegative, arity := "unary", dcp_requires := some "affine_arg" }

/-- Flag 4-tuple classified affine by the diagnostic rule, with the convex
and concave introspection flags false. -/
def flags_affine_only : CurvFlags :=
  { is_convex := false, is_concave := false, is_affine := true, is_constant := false }

/-- Coherent flag 4-tuple of a genuinely affine expression. -/
def flags_affine_coherent : CurvFlags :=
  { is_convex := true, is_concave := true, is_affine := true, is_constant := false }

/-! ## C1 -/

/-- C1: check_curvature implements exactly the documented decision rule
over the four introspection flags: expected unknown always passes,
expected constant passes iff is_constant, expected affine iff is_affine,
expected convex iff is_convex, expected concave iff is_concave. -/
theorem check_curvature_decision_rule (f : CurvFlags) :
    (check_curvature f Curvature.unknown).1 = true ∧
    (check_curvature f Curvature.constant).1 = f.is_constant ∧
    (check_curvature f Curvature.affine).1 = f.is_affine ∧
    (check_curvature f Curvature.convex).1 = f.is_convex ∧
    (check_curvature f Curvature.concave).1 = f.is_concave :=
  ⟨rfl, rfl, rfl, rfl, rfl⟩

/-! ## C2 -/

/-- C2: check_sign implements exactly the documented decision rule over
the two sign flags: expected zero passes iff both flags hold (so
(nonneg, not nonpos) fails zero and (nonneg, nonpos) passes zero),
expected nonnegative iff is_nonneg, expected nonpositive iff is_nonpos,
expected unknown always passes. -/
theorem check_sign_decision_rule (nn np : Bool) :
    (check_sign nn np Sign.zero).1 = (nn && np) ∧
    (check_sign nn np Sign.nonnegative).1 = nn ∧
    (check_sign nn np Sign.nonpositive).1 = np ∧
    (check_sign nn np Sign.unknown).1 = true ∧
    (check_sign true false Sign.zero).1 = false ∧
    (check_sign true true Sign.zero).1 = true :=
  ⟨rfl, rfl, rfl, rfl, rfl, rfl⟩

/-! ## C3 -/

/-- C3 counterexample: the flag 4-tuple (is_convex = false,
is_concave = false, is_affine = true, is_constant = false) is classified
affine by the diagnostic rule, yet the expected-convex check and the
expected-concave check both fail on it, because check_curvature tests the
is_convex / is_concave flags themselves, not the affine classification. -/
theorem check_curvature_affine_class_cex :
    flags_affine_only.is_affine = true ∧
    flags_affine_only.is_constant = false ∧
    curvatureActual flags_affine_only = "affine" ∧
    (check_curvature flags_affine_only Curvature.convex).1 = false ∧
    (check_curvature flags_affine_only Curvature.concave).1 = false :=
  ⟨rfl, rfl, rfl, rfl, rfl⟩

/-- C3 amended: for every flag 4-tuple classified affine whose flags are
coherent (is_affine implies is_convex and is_concave, as any real
backend's introspection guarantees), the expected-convex and
expected-concave checks both pass. -/
theorem check_curvature_affine_subtype (f : CurvFlags)
    (hcoherent : f.is_affine = true → f.is_convex = true ∧ f.is_concave = true)
    (haff : f.is_affine = true) (hconst : f.is_constant = false) :
    (check_curvature f Curvature.convex).1 = true ∧
    (check_curvature f Curvature.concave).1 = true := by
  obtain ⟨hcvx, hccv⟩ := hcoherent haff
  exact ⟨by simp [check_curvature, hcvx], by simp [check_curvature, hccv]⟩

/-- C3 witness: the amended theorem applied to the coherent affine flag
tuple (true, true, true, false). -/
theorem check_curvature_affine_subtype_witness :
    (check_curvature flags_affine_coherent Curvature.convex).1 = true ∧
    (check_curvature flags_affine_coherent Curvature.concave).1 = true :=
  check_curvature_affine_subtype flags_affine_coherent (by decide) (by decide) (by decide)

/-! ## C4 -/

/-- C4: check_dcp_with_non_affine returns pass on EVERY control path; in
particular it still passes when the backend accepts the composition of a
requires_affine_arg atom with a convex non-affine argument and silently
reports the composed expression convex and not affine (the branch in the
source that reads those flags is a no-op `pass`). -/
theorem check_dcp_silent_convex_eval :
    (∀ (atom_name : String) (spec : AtomSpec) (probe : ProbeResult),
      (check_dcp_with_non_affine atom_name spec probe).1 = true) ∧
    check_dcp_with_non_affine "norm1" spec_norm1 (ProbeResult.builds true false) =
      (true, "composition check passed") := by
  constructor
  · intro atom_name spec probe
    unfold check_dcp_with_non_affine
    split
    · rfl
    · split
      · cases probe <;> rfl
      · split
        · rfl
        · cases probe <;> rfl
  · rfl

/-! ## C7 -/

/-- C7: the loader maps the sign token "zero" to Sign.unknown, not to the
catalog value Sign.zero (which no parse path ever produces), and it maps
every unrecognized sign token to Sign.unknown instead of failing the
load; consequently an atom declared with sign "zero" loads with sign
unknown. -/
theorem parse_sign_zero_eval :
    _parse_sign (RawScalar.str "zero") = Sign.unknown ∧
    _parse_sign (RawScalar.str "completely_bogus_token") = Sign.unknown ∧
    _parse_atom "x" { sign := some (RawScalar.str "zero") } Curvature.convex =
      Except.ok { name := "x", description := "", curvature := Curvature.convex,
                  sign := Sign.unknown, arity := "unary" } :=
  ⟨rfl, rfl, rfl⟩

/-! ## C5 -/

/-- A backend in which the atom is mapped but test-expression
construction fails (create_test_expression returns None after printing
its warning). -/
def backend_construct_fails : Backend :=
  { atom_map := ["sum"],
    construct := fun _ => Option.none,
    dcp_probe := fun _ => ProbeResult.builds true true }

def specs_one_sum : AtomSpecs :=
  { affine_atoms := [("sum", spec_sum)], convex_atoms := [], concave_atoms := [] }

/-- C5 counterexample: when construction of the test expression fails,
validate_atom returns a result whose aggregate pass flag is False, and
that atom IS counted by main's failing-atom exit count (sys.exit gets 1
here), contrary to the claim that a construction failure contributes to
neither. -/
theorem validate_atom_construction_failure_cex :
    (validate_atom backend_construct_fails "sum" spec_sum).passed = false ∧
    main_exit_code backend_construct_fails specs_one_sum = 1 :=
  ⟨rfl, rfl⟩

/-- C5 amended: a construction failure is recorded as a failed
creates_expr check (after the printed warning) and short-circuits the
remaining checks, but it sets the atom's aggregate pass flag to False,
so the atom counts toward the validator's failing-atom exit count like
any conformance failure. -/
theorem validate_atom_construction_failure_fails (b : Backend) (atom_name : String)
    (spec : AtomSpec) (hmem : atom_name ∈ b.atom_map)
    (hfail : b.construct atom_name = Option.none) :
    (validate_atom b atom_name spec).checks =
      [("exists", true, "atom exists in cvxpy"),
       ("creates_expr", false, "could not create expression")] ∧
    (validate_atom b atom_name spec).passed = false := by
  unfold validate_atom
  rw [if_pos hmem, hfail]
  exact ⟨rfl, rfl⟩

/-- C5 witness: the amended theorem at the concrete failing backend. -/
theorem validate_atom_construction_failure_fails_witness :
    (validate_atom backend_construct_fails "sum" spec_sum).checks =
      [("exists", true, "atom exists in cvxpy"),
       ("creates_expr", false, "could not create expression")] ∧
    (validate_atom backend_construct_fails "sum" spec_sum).passed = false :=
  validate_atom_construction_failure_fails backend_construct_fails "sum" spec_sum
    (by decide) rfl

/-! ## C9 -/

/-- C9: validate_atom runs its checks in the fixed order exists,
creates_expr, curvature, sign, dcp_requirement; a missing mapping stops
after the exists check and a construction failure stops after the
creates_expr check; when construction succeeds the curvature, sign and
composition entries are exactly the three independent check functions
applied to the same constructed flags; and the aggregate pass flag always
equals the conjunction of the recorded checks. -/
theorem validate_atom_check_order (b : Backend) (atom_name : String) (spec : AtomSpec) :
    (validate_atom b atom_name spec).checks =
      (if atom_name ∈ b.atom_map then
        match b.construct atom_name with
        | Option.none =>
          [("exists", true, "atom exists in cvxpy"),
           ("creates_expr", false, "could not create expression")]
        | some flags =>
          [("exists", true, "atom exists in cvxpy"),
           ("creates_expr", true, "expression created"),
           ("curvature", check_curvature flags.curv spec.curvature),
           ("sign", check_sign flags.is_nonneg flags.is_nonpos spec.sign),
           ("dcp_requirement", check_dcp_with_non_affine atom_name spec (b.dcp_probe atom_name))]
      else [("exists", false, "atom " ++ atom_name ++ " not mapped to cvxpy")]) ∧
    (validate_atom b atom_name spec).passed =
      (validate_atom b atom_name spec).checks.all (fun c => c.2.1) := by
  unfold validate_atom
  by_cases hmem : atom_name ∈ b.atom_map
  · rw [if_pos hmem, if_pos hmem]
    cases hc : b.construct atom_name with
    | none => exact ⟨rfl, rfl⟩
    | some flags => exact ⟨rfl, rfl⟩
  · rw [if_neg hmem, if_neg hmem]
    exact ⟨rfl, rfl⟩

/-! ## C10 -/

/-- C10: the loader fills absent per-atom fields with defaults instead of
failing — description defaults to the empty string, curvature to the
partition default (also chosen when the curvature entry is a structured
mapping), sign to unknown, arity to unary, and the composition
requirement, monotonicity and parameters to absent or empty — and an
absent top-level partition group loads as an empty partition. -/
theorem loader_defaults :
    (∀ (name : String) (dc : Curvature),
      _parse_atom name {} dc =
        Except.ok { name := name, description := "", curvature := dc,
                    sign := Sign.unknown, arity := "unary", dcp_requires := none,
                    monotonicity := none, parameters := [] }) ∧
    (∀ (name : String) (dc : Curvature),
      _parse_atom name { curvature := some RawScalar.mapping } dc =
        Except.ok { name := name, description := "", curvature := dc,
                    sign := Sign.unknown, arity := "unary", dcp_requires := none,
                    monotonicity := none, parameters := [] }) ∧
    (∀ (doc : SpecDoc) (res : AtomSpecs), load_specs doc = Except.ok res →
      (doc.affine_atoms = none → res.affine_atoms = []) ∧
      (doc.convex_atoms = none → res.convex_atoms = []) ∧
      (doc.concave_atoms = none → res.concave_atoms = [])) := by
  refine ⟨?_, ?_, ?_⟩
  · intro name dc
    cases dc <;> rfl
  · intro name dc
    rfl
  · intro doc res h
    unfold load_specs at h
    refine ⟨?_, ?_, ?_⟩ <;> intro hnone <;> rw [hnone] at h
    · rcases hc : parseGroup doc.convex_atoms Curvature.convex with e | cvx <;>
        rw [show parseGroup none Curvature.affine = Except.ok [] from rfl, hc] at h
      · cases h
      · rcases hk : parseGroup doc.concave_atoms Curvature.concave with e | ccv <;>
          rw [hk] at h
        · cases h
        · cases h
          rfl
    · rcases ha : parseGroup doc.affine_atoms Curvature.affine with e | aff <;>
        rw [ha] at h
      · cases h
      · rcases hk : parseGroup doc.concave_atoms Curvature.concave with e | ccv <;>
          rw [show parseGroup none Curvature.convex = Except.ok [] from rfl, hk] at h
        · cases h
        · cases h
          rfl
    · rcases ha : parseGroup doc.affine_atoms Curvature.affine with e | aff <;>
        rw [ha] at h
      · cases h
      · rcases hc : parseGroup doc.convex_atoms Curvature.convex with e | cvx <;>
          rw [hc, show parseGroup none Curvature.concave = Except.ok [] from rfl] at h
        · cases h
        · cases h
          rfl

def doc_convex_only : SpecDoc :=
  { affine_atoms := none, convex_atoms := some [("abs", {})], concave_atoms := none }

def specs_convex_only : AtomSpecs :=
  { affine_atoms := [],
    convex_atoms := [("abs", { name := "abs", description := "", curvature := Curvature.convex,
                               sign := Sign.unknown, arity := "unary" })],
    concave_atoms := [] }

/-- C10 witness: loading a document whose affine and concave groups are
absent and whose only convex atom has every optional field absent yields
empty affine and concave partitions (via the theorem) around the
all-defaults convex atom. -/
theorem loader_defaults_witness :
    specs_convex_only.affine_atoms = [] ∧ specs_convex_only.concave_atoms = [] := by
  have h := loader_defaults.2.2 doc_convex_only specs_convex_only rfl
  exact ⟨h.1 rfl, h.2.2 rfl⟩

/-! ## C8 -/

lemma orElse_none_right (o : Option AtomSpec) : (o.orElse fun _ => Option.none) = o := by
  cases o <;> rfl

lemma some_orElse_thunk (a : AtomSpec) (f : Unit → Option AtomSpec) :
    (Option.some a).orElse f = some a := rfl

lemma none_orElse_thunk (f : Unit → Option AtomSpec) :
    (Option.none : Option AtomSpec).orElse f = f () := rfl

/-- Scanning a sequence of partition dicts in order, returning the first
hit (the generalization of AtomSpecs.get to an arbitrary partition
order). -/
def lookupSeq (name : String) : List (List (String × AtomSpec)) → Option AtomSpec
  | [] => Option.none
  | d :: rest => (dictGet d name).orElse fun _ => lookupSeq name rest

lemma get_eq_lookupSeq (s : AtomSpecs) (name : String) :
    s.get name = lookupSeq name [s.affine_atoms, s.convex_atoms, s.concave_atoms] := by
  simp only [AtomSpecs.get, lookupSeq, orElse_none_right]

/-- How many of the three partitions contain the name. -/
def partitionsContaining (s : AtomSpecs) (name : String) : Nat :=
  (([s.affine_atoms, s.convex_atoms, s.concave_atoms]).filter
    (fun d => (dictGet d name).isSome)).length

lemma filter_length_le_cons {α : Type} (p : α → Bool) (x : α) (l : List α) :
    (l.filter p).length ≤ ((x :: l).filter p).length := by
  rw [List.filter_cons]
  split
  · exact Nat.le_succ _
  · exact Nat.le_refl _

lemma lookupSeq_perm (name : String) {ps qs : List (List (String × AtomSpec))}
    (h : ps.Perm qs) :
    ((qs.filter (fun d => (dictGet d name).isSome)).length ≤ 1) →
    lookupSeq name ps = lookupSeq name qs := by
  induction h with
  | nil => intro _; rfl
  | cons x hperm ih =>
    intro hlen
    have htail := le_trans (filter_length_le_cons (fun d => (dictGet d name).isSome) x _) hlen
    simp only [lookupSeq, ih htail]
  | swap x y l =>
    intro hlen
    rcases hx : dictGet x name with _ | vx <;> rcases hy : dictGet y name with _ | vy <;>
      simp only [lookupSeq, hx, hy, some_orElse_thunk, none_orElse_thunk]
    exfalso
    simp only [List.filter_cons, hx, hy, Option.isSome_some, if_true, List.length_cons] at hlen
    omega
  | trans h1 h2 ih1 ih2 =>
    intro hlen
    have hmid := (List.Perm.length_eq (List.Perm.filter _ h2)) ▸ hlen
    exact (ih1 hmid).trans (ih2 hlen)

/-- C8 amended: when an atom name appears in at most one of the three
partitions, looking it up is independent of the partition scan order
(every permutation of the partitions agrees with AtomSpecs.get). A name
that collides across partitions, however, is silently resolved by get's
fixed affine-convex-concave scan order, not rejected. -/
theorem atomspecs_get_unambiguous (s : AtomSpecs) (name : String)
    (ps : List (List (String × AtomSpec)))
    (hperm : ps.Perm [s.affine_atoms, s.convex_atoms, s.concave_atoms])
    (huniq : partitionsContaining s name ≤ 1) :
    lookupSeq name ps = s.get name := by
  rw [get_eq_lookupSeq]
  exact lookupSeq_perm name hperm huniq

def spec_dup_affine : AtomSpec :=
  { name := "dup", description := "affine version", curvature := Curvature.affine,
    sign := Sign.unknown, arity := "unary" }

def spec_dup_convex : AtomSpec :=
  { name := "dup", description := "convex version", curvature := Curvature.convex,
    sign := Sign.unknown, arity := "unary" }

/-- A catalog in which the same atom name appears in the affine and the
convex partitions with different contracts. -/
def specs_with_collision : AtomSpecs :=
  { affine_atoms := [("dup", spec_dup_affine)],
    convex_atoms := [("dup", spec_dup_convex)],
    concave_atoms := [] }

/-- C8 counterexample: on a catalog with a cross-partition name
collision, the lookup result DOES depend on the partition scan order:
scanning convex before affine returns a different spec than
AtomSpecs.get, and even within the code the merged all_atoms dict
resolves the same name to a different spec than get does. -/
theorem atomspecs_get_order_dependent_cex :
    lookupSeq "dup"
        [specs_with_collision.convex_atoms, specs_with_collision.affine_atoms,
         specs_with_collision.concave_atoms] ≠
      specs_with_collision.get "dup" ∧
    dictGet specs_with_collision.all_atoms "dup" ≠ specs_with_collision.get "dup" := by
  exact ⟨by decide, by decide⟩

def specs_no_collision : AtomSpecs :=
  { affine_atoms := [("sum", spec_sum)], convex_atoms := [("abs", spec_abs)],
    concave_atoms := [] }

/-- C8 witness: on a collision-free catalog, scanning convex before
affine agrees with AtomSpecs.get. -/
theorem atomspecs_get_unambiguous_witness :
    lookupSeq "sum"
        [specs_no_collision.convex_atoms, specs_no_collision.affine_atoms,
         specs_no_collision.concave_atoms] =
      specs_no_collision.get "sum" :=
  atomspecs_get_unambiguous specs_no_collision "sum" _
    (List.Perm.swap _ _ _) (by decide)

/-! ## C6 -/

lemma parse_summary_line_error_ne (acc : Int × Int) (line : PyStr) (e : String)
    (h : parse_summary_line acc line = Except.error e) : e ≠ "" := by
  simp only [parse_summary_line] at h
  repeat' split at h
  all_goals cases h
  all_goals decide

lemma scan_summary_aux_error_ne (lines : List PyStr) :
    ∀ (acc : Int × Int) (e : String),
      scan_summary_aux acc lines = Except.error e → e ≠ "" := by
  induction lines with
  | nil =>
    intro acc e h
    exact absurd h (by simp [scan_summary_aux])
  | cons line rest ih =>
    intro acc e h
    unfold scan_summary_aux at h
    cases hp : parse_summary_line acc line with
    | error e2 =>
      rw [hp] at h
      cases h
      exact parse_summary_line_error_ne acc line _ hp
    | ok acc2 =>
      rw [hp] at h
      exact ih acc2 e h

lemma scan_summary_error_ne (out : PyStr) (e : String)
    (h : scan_summary out = Except.error e) : e ≠ "" :=
  scan_summary_aux_error_ne _ _ _ h

lemma python_success_iff_pass (inv : InvokeResult) :
    (run_python_validator inv).success = true ↔
      classify (run_python_validator inv) = Status.PASS := by
  cases inv with
  | completed rc out =>
    cases hs : scan_summary out with
    | ok pt =>
      by_cases h0 : rc == 0 <;>
        simp [run_python_validator, hs, classify, pyTruthy, h0]
    | error e =>
      have hne := scan_summary_error_ne out e hs
      simp [run_python_validator, hs, classify, pyTruthy, bne, hne]
  | timedOut => decide
  | raised msg =>
    by_cases hm : msg = "" <;>
      simp [run_python_validator, classify, pyTruthy, bne, hm]

lemma scan_summary_aux_no_token (lines : List PyStr)
    (hnone : ∀ line ∈ lines,
      containsSub (String.toList "Validation Results:") line = false) :
    ∀ acc, scan_summary_aux acc lines = Except.ok acc := by
  induction lines with
  | nil => intro acc; rfl
  | cons line rest ih =>
    intro acc
    have hline := hnone line (List.mem_cons_self _ _)
    unfold scan_summary_aux
    rw [show parse_summary_line acc line = Except.ok acc from by
      unfold parse_summary_line; rw [hline]; rfl]
    exact ih (fun l hl => hnone l (List.mem_cons_of_mem _ hl)) acc

/-- C6 amended: a PASS outcome is exactly a completed child process with
exit code zero whose summary scan raised no exception (in particular a
missing summary line still scans cleanly, yielding passed 0, total 0);
FAIL is exactly a completed process with nonzero exit code and a clean
scan; ERROR is a completed process whose summary scan raised (a matching
but malformed summary line), a timeout, a spawn exception with non-empty
text (Python truthiness: an exception rendering to the empty string
degenerates to FAIL), or an absent toolchain directory; and the
orchestrator exits 0 exactly when every invoked backend's outcome is
PASS, else 1. -/
theorem orchestrator_outcome_classification :
    (∀ inv : InvokeResult,
      (classify (run_python_validator inv) = Status.PASS ↔
        (∃ rc out, inv = InvokeResult.completed rc out ∧ rc = 0 ∧ scanOk out = true)) ∧
      (classify (run_python_validator inv) = Status.FAIL ↔
        ((∃ rc out, inv = InvokeResult.completed rc out ∧ rc ≠ 0 ∧ scanOk out = true) ∨
         (∃ msg, inv = InvokeResult.raised msg ∧ msg = ""))) ∧
      (classify (run_python_validator inv) = Status.ERROR ↔
        ((∃ rc out, inv = InvokeResult.completed rc out ∧ scanOk out = false) ∨
         inv = InvokeResult.timedOut ∨
         (∃ msg, inv = InvokeResult.raised msg ∧ msg ≠ "")))) ∧
    (∀ out : PyStr, hasSummaryLine out = false → scan_summary out = Except.ok (0, 0)) ∧
    (∀ inv : InvokeResult, classify (run_rust_validator false inv) = Status.ERROR) ∧
    (∀ invs : List InvokeResult,
      orchestrator_exit (invs.map run_python_validator) = 0 ↔
        ∀ r ∈ invs.map run_python_validator, classify r = Status.PASS) := by
  refine ⟨?_, ?_, ?_, ?_⟩
  · intro inv
    cases inv with
    | completed rc out =>
      cases hs : scan_summary out with
      | ok pt =>
        have hok : scanOk out = true := by simp [scanOk, hs]
        by_cases h0 : rc = 0
        · simp [run_python_validator, hs, classify, pyTruthy, h0, hok]
          exact ⟨0, out, ⟨rfl, rfl⟩, rfl, hok⟩
        · simp [run_python_validator, hs, classify, pyTruthy, h0, hok]
          exact ⟨rc, out, ⟨rfl, rfl⟩, h0, hok⟩
      | error e =>
        have hne := scan_summary_error_ne out e hs
        have hok : scanOk out = false := by simp [scanOk, hs]
        simp [run_python_validator, hs, classify, pyTruthy, bne, hne, hok]
        exact ⟨rc, out, ⟨rfl, rfl⟩, hok⟩
    | timedOut =>
      simp [run_python_validator, classify, pyTruthy]
    | raised msg =>
      by_cases hm : msg = "" <;>
        simp [run_python_validator, classify, pyTruthy, bne, hm]
  · intro out h
    unfold scan_summary
    apply scan_summary_aux_no_token
    intro line hline
    unfold hasSummaryLine at h
    simpa using List.any_eq_false.mp h line hline
  · intro inv
    rfl
  · intro invs
    unfold orchestrator_exit
    split
    case isTrue hall =>
      rw [List.all_eq_true] at hall
      constructor
      · intro _ r hr
        rcases List.mem_map.mp hr with ⟨inv, hinv, rfl⟩
        exact (python_success_iff_pass inv).mp (hall _ hr)
      · intro _
        rfl
    case isFalse hall =>
      constructor
      · intro h01
        exact absurd h01 (by decide)
      · intro hforall
        exfalso
        apply hall
        rw [List.all_eq_true]
        intro r hr
        rcases List.mem_map.mp hr with ⟨inv, hinv, rfl⟩
        exact (python_success_iff_pass inv).mpr (hforall _ hr)

/-- C6 witness: an output with no summary line scans to passed 0,
total 0, and a child that exits 0 with that output is still classified
PASS. -/
theorem orchestrator_outcome_classification_witness :
    scan_summary (String.toList "no summary here") = Except.ok (0, 0) ∧
    classify (run_python_validator
      (InvokeResult.completed 0 (String.toList "no summary here"))) = Status.PASS := by
  have h := orchestrator_outcome_classification
  exact ⟨h.2.1 _ (by decide), (h.1 _).1.mpr ⟨0, _, rfl, rfl, by decide⟩⟩

def malformed_summary_output : PyStr :=
  String.toList "CVXPY Validation Results: a/b atoms passed"

/-- C6 counterexample: a child process that exits with code zero but
whose output contains a matching yet malformed summary line (the int
conversion raises) is classified ERROR, not PASS, refuting the claim
that a zero exit code yields PASS whether or not a summary line was
parsed. -/
theorem orchestrator_malformed_summary_cex :
    classify (run_python_validator
      (InvokeResult.completed 0 malformed_summary_output)) = Status.ERROR ∧
    Status.ERROR ≠ Status.PASS :=
  ⟨rfl, by decide⟩
